import Mathlib

/-!
Verification development for the change-tracking model base of
`src/sentry/db/models/base.py` (plus the concrete models in
`src/sentry/models/option.py` and `src/sentry/models/authprovider.py`).

The Python module is shallowly embedded: a model instance is a `Record`
carrying its per-class field metadata (`_meta.fields`), its readable
attributes, and the change-tracking snapshot (`self.__data`, which Python
name mangling stores in the instance dictionary under the key
`_BaseModel__data` because the methods writing it live in class
`BaseModel`).

Python attribute reads are modelled fallibly: an attribute slot either
holds a plain value or is backed by a descriptor whose read fails with
`AttributeError` (the situation the source's `except AttributeError`
branch in `_update_tracked_data` guards against, per its comment
"this case can come up from pickling").
-/

namespace Sentry

/-- Python scalar values as they appear in tracked model columns. -/
inductive PyVal where
  | none : PyVal
  | int : Int → PyVal
  | str : String → PyVal
  | bool : Bool → PyVal
deriving DecidableEq, Repr

/-- Python truthiness, used by the source's `if self.id:` test. -/
def PyVal.truthy : PyVal → Bool
  | PyVal.none => false
  | PyVal.int n => decide (n ≠ 0)
  | PyVal.str s => decide (s ≠ "")
  | PyVal.bool b => b

/-- Python repr of a scalar value (used by `sane_repr`). -/
def PyVal.pyRepr : PyVal → String
  | PyVal.none => "None"
  | PyVal.int n => toString n
  | PyVal.str s => "\x27" ++ s ++ "\x27"
  | PyVal.bool b => if b then "True" else "False"

/-- Python str of a scalar value (used by `sane_dict`). -/
def PyVal.pyStr : PyVal → String
  | PyVal.none => "None"
  | PyVal.int n => toString n
  | PyVal.str s => s
  | PyVal.bool b => if b then "True" else "False"

/-- An attribute slot on an instance: either a plain value, or a
descriptor-backed slot whose read raises `AttributeError` (e.g. a
deferred field that cannot be loaded after unpickling). -/
inductive Attr where
  | val : PyVal → Attr
  | raises : Attr
deriving DecidableEq, Repr

/-- Exceptions the embedded operations can surface. `fieldDoesNotExist`
is Django's error from `_meta.get_field` (the spec's `UnknownFieldError`). -/
inductive PyErr where
  | attributeError : PyErr
  | fieldDoesNotExist : PyErr
  | typeError : PyErr
deriving DecidableEq, Repr

/-- Field metadata as exposed by Django's `_meta.fields`: logical `name`,
storage attribute `column` (for a `ForeignKey` this is the scalar key
attribute, e.g. `organization_id`; otherwise it equals `name`), and
whether the field is a `ForeignKey`. -/
structure Field where
  name : String
  column : String
  isForeignKey : Bool
deriving DecidableEq, Repr

/-- Per-class metadata: the declared fields, in declaration order. -/
structure ModelMeta where
  fields : List Field
deriving DecidableEq, Repr

/-- The tracked snapshot `self.__data`: either the shared `UNSAVED`
sentinel or a dict from storage column name to captured value. -/
inductive Snapshot where
  | unsaved : Snapshot
  | data : List (String × PyVal) → Snapshot
deriving DecidableEq, Repr

/-- A model instance: class metadata, readable attributes, and the
change-tracking snapshot. -/
structure Record where
  meta : ModelMeta
  attrs : List (String × Attr)
  snapshot : Snapshot
deriving DecidableEq, Repr

/-- Association-list lookup (first binding wins; the dictionaries we
model never hold duplicate keys). -/
def alookup {α : Type} : List (String × α) → String → Option α
  | [], _ => Option.none
  | (k, v) :: rest, k2 => if k = k2 then some v else alookup rest k2

/-- Python `dict.get(key)` on a snapshot dict: absent keys read as `None`. -/
def dictGet (d : List (String × PyVal)) (k : String) : PyVal :=
  (alookup d k).getD PyVal.none

/-- Python `getattr(obj, name, default)` on a record: an absent slot
yields the default; a failing descriptor read surfaces `AttributeError`. -/
def pygetattr (r : Record) (name : String) (dflt : PyVal) : Except PyErr PyVal :=
  match alookup r.attrs name with
  | Option.none => Except.ok dflt
  | some (Attr.val v) => Except.ok v
  | some Attr.raises => Except.error PyErr.attributeError

/-- BaseModel.__get_field_value: a `ForeignKey` is read through its
scalar key attribute `field.column`; any other field through its logical
`field.name`; both with default `None`. -/
def __get_field_value (r : Record) (f : Field) : Except PyErr PyVal :=
  if f.isForeignKey then pygetattr r f.column PyVal.none
  else pygetattr r f.name PyVal.none

/-- The value of `self.id`. Django model instances always materialise the
primary-key attribute (it is `None` until the record is persisted), so an
absent slot reads as `None` here. -/
def pyId (attrs : List (String × Attr)) : PyVal :=
  match alookup attrs "id" with
  | some (Attr.val v) => v
  | _ => PyVal.none

/-- The capture loop of BaseModel._update_tracked_data: for each declared
field, store `__get_field_value` under `f.column`; a read that raises
`AttributeError` is logged and the field skipped (`except AttributeError`
branch). Columns are unique per model, so the dict is an assoc list. -/
def captureFields (r : Record) : List Field → List (String × PyVal)
  | [] => []
  | f :: fs =>
    match __get_field_value r f with
    | Except.ok v => (f.column, v) :: captureFields r fs
    | Except.error _ => captureFields r fs

/-- BaseModel._update_tracked_data: `if self.id:` capture all fields into
a fresh dict, else set the `UNSAVED` sentinel. -/
def _update_tracked_data (r : Record) : Snapshot :=
  if (pyId r.attrs).truthy then Snapshot.data (captureFields r r.meta.fields)
  else Snapshot.unsaved

/-- The state change `self._update_tracked_data()` performs on the
instance: wholesale replacement of `self.__data`. -/
def refreshTrackedData (r : Record) : Record :=
  ⟨r.meta, r.attrs, _update_tracked_data r⟩

/-- BaseModel.__init__: after the superclass sets up the attributes, the
constructor runs `self._update_tracked_data()` before returning. -/
def __init__ (meta : ModelMeta) (attrs : List (String × Attr)) : Record :=
  refreshTrackedData ⟨meta, attrs, Snapshot.unsaved⟩

/-- Django's `self._meta.get_field(field_name)`: finds the field by its
logical name, raising `FieldDoesNotExist` when no declared field has that
name. -/
def _meta_get_field (meta : ModelMeta) (field_name : String) : Except PyErr Field :=
  match meta.fields.find? (fun f => f.name = field_name) with
  | some f => Except.ok f
  | Option.none => Except.error PyErr.fieldDoesNotExist

/-- BaseModel.has_changed: `False` when the snapshot is `UNSAVED`;
otherwise resolve the field via `_meta.get_field` and compare
`self.__data.get(field_name)` — note: keyed by the given field NAME, while
capture stored under `f.column` — with `self.__get_field_value(field)`. -/
def has_changed (r : Record) (field_name : String) : Except PyErr Bool :=
  match r.snapshot with
  | Snapshot.unsaved => Except.ok false
  | Snapshot.data d =>
    match _meta_get_field r.meta field_name with
    | Except.error e => Except.error e
    | Except.ok field =>
      match __get_field_value r field with
      | Except.error e => Except.error e
      | Except.ok cur => Except.ok (decide (dictGet d field_name ≠ cur))

/-- BaseModel.old_value: `None` when the snapshot is `UNSAVED`; otherwise
`self.__data.get(field_name)`. No metadata lookup, so it never raises. -/
def old_value (r : Record) (field_name : String) : Except PyErr PyVal :=
  match r.snapshot with
  | Snapshot.unsaved => Except.ok PyVal.none
  | Snapshot.data d => Except.ok (dictGet d field_name)

/-- An entry of the instance dictionary `self.__dict__`: an ordinary
attribute, or the snapshot stored by the change tracker. -/
inductive DictEntry where
  | attr : Attr → DictEntry
  | snap : Snapshot → DictEntry
deriving DecidableEq, Repr

/-- The key under which `self.__data` actually lives in `self.__dict__`:
the writes happen in methods of class `BaseModel`, so Python name
mangling produces `_BaseModel__data`. -/
def snapshotKey : String := "_BaseModel__data"

/-- The instance dictionary `self.__dict__`: the ordinary attribute slots
plus the snapshot entry under its name-mangled key. -/
def dunderDict (r : Record) : List (String × DictEntry) :=
  r.attrs.map (fun p => (p.1, DictEntry.attr p.2)) ++ [(snapshotKey, DictEntry.snap r.snapshot)]

/-- Python `dict.pop(key, None)` restricted to the resulting dict. -/
def dictPop (d : List (String × DictEntry)) (k : String) : List (String × DictEntry) :=
  d.filter (fun p => p.1 != k)

/-- BaseModel.__getstate__: copy `self.__dict__` and
`d.pop('_Model__data', None)`. The literal key `_Model__data` is NOT the
mangled key `_BaseModel__data` the snapshot is stored under. -/
def __getstate__ (r : Record) : List (String × DictEntry) :=
  dictPop (dunderDict r) "_Model__data"

/-- BaseModel.__setstate__: `self.__dict__.update(state)` on a freshly
allocated instance of the class, then `self._update_tracked_data()`,
which overwrites whatever snapshot entry the state carried. -/
def __setstate__ (meta : ModelMeta) (state : List (String × DictEntry)) : Record :=
  refreshTrackedData
    ⟨meta,
     state.filterMap (fun p =>
       match p.2 with
       | DictEntry.attr a => some (p.1, a)
       | DictEntry.snap _ => Option.none),
     (match alookup state snapshotKey with
      | some (DictEntry.snap s) => s
      | _ => Snapshot.unsaved)⟩

/-- Pickling round trip through `__reduce__`/`__getstate__` and
`__setstate__` for an instance of a class with the given metadata. -/
def pickleRoundTrip (r : Record) : Record :=
  __setstate__ r.meta (__getstate__ r)

/-- An argument delivered by the `post_save` signal: either an instance
of `BaseModel` or some unrelated object. -/
inductive Instance where
  | base : Record → Instance
  | other : Instance
deriving DecidableEq, Repr

/-- The module-level receiver `__model_post_save`, connected to
`signals.post_save` with no sender restriction (base.py line 134):
ignores non-`BaseModel` instances, otherwise runs
`instance._update_tracked_data()`. -/
def __model_post_save : Instance → Instance
  | Instance.base r => Instance.base (refreshTrackedData r)
  | Instance.other => Instance.other

/-- The value of a class `__sane__` attribute. The parenthesised literal
`('id')` in Python is the plain string `"id"`, not a one-element tuple,
so both shapes must be represented. -/
inductive SaneAttr where
  | tup : List String → SaneAttr
  | pystr : String → SaneAttr
deriving DecidableEq, Repr

/-- The class-level data `sane_repr`/`sane_dict` consult: the class name
and its `__sane__` attribute, when one is defined (possibly inherited). -/
structure PyClass where
  name : String
  sane : Option SaneAttr
deriving DecidableEq, Repr

/-- The shared prologue of `sane_repr` and `sane_dict`: prepend `id`
unless `id` or `pk` is already among the configured attributes. -/
def addIdAttr (attrs : List String) : List String :=
  if "id" ∈ attrs ∨ "pk" ∈ attrs then attrs else "id" :: attrs

/-- Python tuple concatenation `attrs + sane`: concatenating a tuple with
a string raises `TypeError`. -/
def tupleConcat (t : List String) : SaneAttr → Except PyErr (List String)
  | SaneAttr.tup u => Except.ok (t ++ u)
  | SaneAttr.pystr _ => Except.error PyErr.typeError

/-- The attribute list `attrs + getattr(cls, '__sane__', ())` rendered by
the builders (after the `id` prologue), or the `TypeError` the
concatenation raises. -/
def saneAttrsFor (attrs : List String) (cls : PyClass) : Except PyErr (List String) :=
  tupleConcat (addIdAttr attrs) (cls.sane.getD (SaneAttr.tup []))

/-- Evaluation of the lazy generator of rendered items: the first raised
exception propagates, otherwise all items are produced in order. -/
def mapME {α : Type} (g : String → Except PyErr α) : List String → Except PyErr (List α)
  | [] => Except.ok []
  | a :: rest =>
    match g a with
    | Except.error e => Except.error e
    | Except.ok b =>
      match mapME g rest with
      | Except.error e => Except.error e
      | Except.ok bs => Except.ok (b :: bs)

/-- One pair of `sane_repr`: the string `a=repr(getattr(self, a, None))`. -/
def reprPair (r : Record) (a : String) : Except PyErr String :=
  match pygetattr r a PyVal.none with
  | Except.ok v => Except.ok (a ++ "=" ++ v.pyRepr)
  | Except.error e => Except.error e

/-- The `name=value` pairs of the `_repr` closure `sane_repr(*attrs)`
builds for a class and instance. The full repr wraps them as
`<ClassName at 0xADDR: pair, pair, ...>`; the memory address is opaque
and carries no information about the record, so the pairs are the
modelled content. -/
def sane_repr (attrs : List String) (cls : PyClass) (r : Record) : Except PyErr (List String) :=
  match saneAttrsFor attrs cls with
  | Except.error e => Except.error e
  | Except.ok sa => mapME (reprPair r) sa

/-- One entry of `sane_dict`: key `classname.lower() . attr` and value
`str(getattr(self, a, None))`. -/
def dictPair (cls : PyClass) (r : Record) (a : String) : Except PyErr (String × String) :=
  match pygetattr r a PyVal.none with
  | Except.ok v => Except.ok (cls.name.toLower ++ "." ++ a, v.pyStr)
  | Except.error e => Except.error e

/-- The mapping the `_dict` closure `sane_dict(*attrs)` builds for a
class and instance. -/
def sane_dict (attrs : List String) (cls : PyClass) (r : Record) : Except PyErr (List (String × String)) :=
  match saneAttrsFor attrs cls with
  | Except.error e => Except.error e
  | Except.ok sa => mapME (dictPair cls r) sa

/-- The base class attribute `Model.__sane__ = ('id')` (base.py line
129): the parentheses do not make a tuple, so the value is the plain
string `"id"`, inherited by every subclass that does not override it. -/
def modelBaseSane : SaneAttr := SaneAttr.pystr "id"

/-- The total value a successful `getattr(self, a, None)` produces. -/
def attrValD (r : Record) (a : String) : PyVal :=
  match alookup r.attrs a with
  | some (Attr.val v) => v
  | _ => PyVal.none

/-- The value capture records for a field whose read succeeds. -/
def readValue (r : Record) (f : Field) : PyVal :=
  match __get_field_value r f with
  | Except.ok v => v
  | Except.error _ => PyVal.none

/-! Concrete fixtures, shaped after the concrete models in the
repository: `Option` (plain fields `key`, `value`) and `AuthProvider`
(ForeignKey `organization` stored in column `organization_id`, plain
field `provider`). -/

/-- The auto primary-key field contributed by `Model`. -/
def idField : Field := ⟨"id", "id", false⟩

/-- The `key` column of the `Option` model. -/
def keyField : Field := ⟨"key", "key", false⟩

/-- The `value` column of the `Option` model. -/
def valueField : Field := ⟨"value", "value", false⟩

/-- Field metadata of the `Option` model. -/
def optionMeta : ModelMeta := ⟨[idField, keyField, valueField]⟩

/-- The `organization` ForeignKey of `AuthProvider`: logical name
`organization`, storage column `organization_id`. -/
def organizationField : Field := ⟨"organization", "organization_id", true⟩

/-- The `provider` column of `AuthProvider`. -/
def providerField : Field := ⟨"provider", "provider", false⟩

/-- Field metadata of the `AuthProvider` model. -/
def authMeta : ModelMeta := ⟨[idField, organizationField, providerField]⟩

/-- A persisted `Option`-shaped record, freshly constructed with id 1. -/
def savedOptionRec : Record :=
  __init__ optionMeta
    [("id", Attr.val (PyVal.int 1)),
     ("key", Attr.val (PyVal.str "foo")),
     ("value", Attr.val (PyVal.str "bar"))]

/-- A persisted `AuthProvider`-shaped record, freshly constructed with
id 1 and `organization_id` 5. -/
def authRec : Record :=
  __init__ authMeta
    [("id", Attr.val (PyVal.int 1)),
     ("organization_id", Attr.val (PyVal.int 5)),
     ("provider", Attr.val (PyVal.str "dummy"))]

/-- A freshly constructed, never-persisted `Option`-shaped record:
`id` is `None`, field values set in memory. -/
def newOptionRec : Record :=
  __init__ optionMeta
    [("id", Attr.val PyVal.none),
     ("key", Attr.val (PyVal.str "foo")),
     ("value", Attr.val (PyVal.str "bar"))]

/-- An `Option`-shaped record whose `value` attribute read raises during
capture (a partially restored instance), with id 2 so capture runs. -/
def partialOptionRec : Record :=
  ⟨optionMeta,
   [("id", Attr.val (PyVal.int 2)),
    ("key", Attr.val (PyVal.str "k")),
    ("value", Attr.raises)],
   Snapshot.unsaved⟩

/-- C1: the claim fails on the code. On `authRec` the Snapshot was just
captured, storing the foreign key under its storage column
`organization_id` with the current key value 5; the field's current value
read by the capture rule is also 5; yet `has_changed "organization"`
returns `true`, because the code looks the Snapshot up under the given
field NAME `organization` (`self.__data.get(field_name)`), not under the
storage attribute name the claim (and capture) use. -/
theorem fk_has_changed_misses_snapshot_key :
    authRec.snapshot =
      Snapshot.data
        [("id", PyVal.int 1), ("organization_id", PyVal.int 5), ("provider", PyVal.str "dummy")] ∧
    __get_field_value authRec organizationField = Except.ok (PyVal.int 5) ∧
    has_changed authRec "organization" = Except.ok true :=
  ⟨rfl, rfl, rfl⟩

/-- C2: the claim fails on the code. `__getstate__` pops the literal key
`_Model__data`, but name mangling stores the Snapshot under
`_BaseModel__data`, so the exported state is the whole instance dict,
Snapshot included. -/
theorem getstate_retains_snapshot :
    __getstate__ authRec = dunderDict authRec ∧
    alookup (__getstate__ authRec) snapshotKey = some (DictEntry.snap authRec.snapshot) :=
  ⟨rfl, rfl⟩

/-- C3 counterexample: the claim demands that `old_value` fail with
`UnknownFieldError` for every record and unknown field name, but on the
persisted record `savedOptionRec` and the unknown name `bogus` (no such
field in the metadata) `old_value` returns `None` without error, and on
the unsaved record `newOptionRec` even `has_changed` returns `false`
without consulting the metadata. -/
theorem old_value_unknown_field_no_error :
    _meta_get_field optionMeta "bogus" = Except.error PyErr.fieldDoesNotExist ∧
    old_value savedOptionRec "bogus" = Except.ok PyVal.none ∧
    has_changed newOptionRec "bogus" = Except.ok false :=
  ⟨rfl, rfl, rfl⟩

/-- C5: the claim fails on the code. The pickle round trip does restore
the ordinary attributes and does re-derive the Snapshot by a fresh
capture, but `has_changed` is not `false` for every field afterwards: the
ForeignKey field `organization` reports `true` (the same field-name vs
column-name mismatch as in `has_changed` generally), while the plain
field `provider` reports `false`. -/
theorem pickle_roundtrip_fk_bug :
    (pickleRoundTrip authRec).attrs = authRec.attrs ∧
    (pickleRoundTrip authRec).snapshot = _update_tracked_data authRec ∧
    has_changed (pickleRoundTrip authRec) "provider" = Except.ok false ∧
    has_changed (pickleRoundTrip authRec) "organization" = Except.ok true :=
  ⟨rfl, rfl, rfl, rfl⟩

/-- C7: the `post_save` receiver refreshes the tracked data of the exact
`BaseModel` instance it is notified with (replacing its Snapshot by a
fresh capture) and does nothing for objects that are not instances of
the tracked base type. -/
theorem post_save_hook_behavior :
    (∀ r : Record,
      __model_post_save (Instance.base r) = Instance.base ⟨r.meta, r.attrs, _update_tracked_data r⟩) ∧
    __model_post_save Instance.other = Instance.other :=
  ⟨fun _ => rfl, rfl⟩

/-- C10: a concrete subclass (class name `Thing`) that inherits
`Model.__sane__ = ('id')` — a plain string, not a tuple — makes both
the debug repr and the debug dict builders raise `TypeError` at the
tuple-plus-string concatenation instead of returning a result. -/
theorem string_sane_concat_type_error :
    sane_repr ["key"] ⟨"Thing", some modelBaseSane⟩ savedOptionRec = Except.error PyErr.typeError ∧
    sane_dict ["id"] ⟨"Thing", some modelBaseSane⟩ savedOptionRec = Except.error PyErr.typeError :=
  ⟨rfl, rfl⟩

/-- A persisted `Option`-shaped record whose `value` attribute is absent
(e.g. restored from a legacy payload lacking it). -/
def sparseOptionRec : Record :=
  __init__ optionMeta
    [("id", Attr.val (PyVal.int 1)),
     ("key", Attr.val (PyVal.str "foo"))]

theorem captureFields_all_ok (r : Record) (fs : List Field)
    (h : ∀ f ∈ fs, ∃ v, __get_field_value r f = Except.ok v) :
    captureFields r fs = fs.map (fun f => (f.column, readValue r f)) := by
  induction fs with
  | nil => rfl
  | cons f rest ih =>
    obtain ⟨v, hv⟩ := h f (List.mem_cons_self f rest)
    have hr : readValue r f = v := by unfold readValue; rw [hv]
    simp only [captureFields, hv, List.map_cons, hr]
    exact congrArg _ (ih fun g hg => h g (List.mem_cons_of_mem f hg))

theorem captureFields_lookup_none (r : Record) (fs : List Field) (k : String)
    (h : ∀ g ∈ fs, g.column = k → ∀ v, __get_field_value r g ≠ Except.ok v) :
    alookup (captureFields r fs) k = Option.none := by
  induction fs with
  | nil => rfl
  | cons f rest ih =>
    have ihr := ih fun g hg => h g (List.mem_cons_of_mem f hg)
    cases hv : __get_field_value r f with
    | error e => simpa [captureFields, hv] using ihr
    | ok v =>
      have hfk : f.column ≠ k := fun hk => h f (List.mem_cons_self f rest) hk v hv
      simpa [captureFields, hv, alookup, hfk] using ihr

theorem captureFields_lookup_of_ok (r : Record) (fs : List Field) (g : Field) (v : PyVal)
    (hnd : (fs.map fun x => x.column).Nodup)
    (hg : g ∈ fs) (hv : __get_field_value r g = Except.ok v) :
    alookup (captureFields r fs) g.column = some v := by
  induction fs with
  | nil => cases hg
  | cons f rest ih =>
    have hnd2 : (rest.map fun x => x.column).Nodup := (List.nodup_cons.mp hnd).2
    rcases List.mem_cons.mp hg with rfl | hg2
    · simp [captureFields, hv, alookup]
    · have hne : f.column ≠ g.column := by
        intro he
        have hmem : g.column ∈ rest.map fun x => x.column :=
          List.mem_map.mpr ⟨g, hg2, rfl⟩
        exact (List.nodup_cons.mp hnd).1
          (by show f.column ∈ List.map (fun x => x.column) rest; rw [he]; exact hmem)
      cases hf : __get_field_value r f with
      | error e => simpa [captureFields, hf] using ih hnd2 hg2
      | ok w => simpa [captureFields, hf, alookup, hne] using ih hnd2 hg2

theorem pygetattr_ok (r : Record) (a : String)
    (h : alookup r.attrs a ≠ some Attr.raises) :
    pygetattr r a PyVal.none = Except.ok (attrValD r a) := by
  cases hl : alookup r.attrs a with
  | none => simp [pygetattr, attrValD, hl]
  | some a2 =>
    cases a2 with
    | val v => simp [pygetattr, attrValD, hl]
    | raises => exact absurd hl h

theorem mapME_ok {α : Type} (g : String → Except PyErr α) (h : String → α) (l : List String)
    (hg : ∀ a ∈ l, g a = Except.ok (h a)) :
    mapME g l = Except.ok (l.map h) := by
  induction l with
  | nil => rfl
  | cons a rest ih =>
    have ha := hg a (List.mem_cons_self a rest)
    have hrest := ih fun b hb => hg b (List.mem_cons_of_mem a hb)
    simp [mapME, ha, hrest]

theorem saneAttrsFor_eq (attrs : List String) (cls : PyClass) (sa : List String)
    (hsa : saneAttrsFor attrs cls = Except.ok sa) :
    ∃ u, sa = addIdAttr attrs ++ u := by
  unfold saneAttrsFor tupleConcat at hsa
  cases hcs : cls.sane.getD (SaneAttr.tup []) with
  | tup u =>
    rw [hcs] at hsa
    exact ⟨u, by injection hsa with h; exact h.symm⟩
  | pystr s => rw [hcs] at hsa; cases hsa

theorem addIdAttr_mem (attrs : List String) :
    "id" ∈ addIdAttr attrs ∨ "pk" ∈ addIdAttr attrs := by
  unfold addIdAttr
  by_cases h : "id" ∈ attrs ∨ "pk" ∈ attrs
  · rw [if_pos h]; exact h
  · rw [if_neg h]; exact Or.inl (List.mem_cons_self _ _)

/-- C3 amended: unknown field names fail with `UnknownFieldError` only in
`has_changed` and only when the Snapshot is not `UNSAVED`; on an
`UNSAVED` Snapshot `has_changed` returns `false` before consulting the
metadata, and `old_value` never consults the metadata at all, returning a
value (absent reads as `None`) instead of failing. -/
theorem unknown_field_behavior (r : Record) (fn : String)
    (h : _meta_get_field r.meta fn = Except.error PyErr.fieldDoesNotExist) :
    (∀ d, r.snapshot = Snapshot.data d → has_changed r fn = Except.error PyErr.fieldDoesNotExist) ∧
    (r.snapshot = Snapshot.unsaved → has_changed r fn = Except.ok false) ∧
    (∃ v, old_value r fn = Except.ok v) := by
  refine ⟨?_, ?_, ?_⟩
  · intro d hd
    unfold has_changed
    rw [hd, h]
  · intro hu
    unfold has_changed
    rw [hu]
  · unfold old_value
    cases hs : r.snapshot with
    | unsaved => exact ⟨PyVal.none, rfl⟩
    | data d => exact ⟨dictGet d fn, rfl⟩

/-- Witness for the amended C3 at the persisted record `savedOptionRec`
and the unknown field name `bogus`. -/
theorem unknown_field_behavior_witness :
    _meta_get_field savedOptionRec.meta "bogus" = Except.error PyErr.fieldDoesNotExist ∧
    ((∀ d, savedOptionRec.snapshot = Snapshot.data d →
        has_changed savedOptionRec "bogus" = Except.error PyErr.fieldDoesNotExist) ∧
     (savedOptionRec.snapshot = Snapshot.unsaved → has_changed savedOptionRec "bogus" = Except.ok false) ∧
     (∃ v, old_value savedOptionRec "bogus" = Except.ok v)) :=
  ⟨rfl, unknown_field_behavior savedOptionRec "bogus" rfl⟩

/-- C4: capture produces the `UNSAVED` sentinel exactly when the
identifier is absent (given that persisted identifiers are positive
integers, as the auto primary key guarantees), and otherwise a mapping
keyed by the storage column names of the declared fields with the values
read for them (all fields being readable). -/
theorem capture_shape (r : Record)
    (hid : pyId r.attrs = PyVal.none ∨ ∃ n : Int, 0 < n ∧ pyId r.attrs = PyVal.int n)
    (hread : ∀ f ∈ r.meta.fields, ∃ v, __get_field_value r f = Except.ok v) :
    (_update_tracked_data r = Snapshot.unsaved ↔ pyId r.attrs = PyVal.none) ∧
    (pyId r.attrs ≠ PyVal.none →
      _update_tracked_data r =
        Snapshot.data (r.meta.fields.map fun f => (f.column, readValue r f))) := by
  have hcap := captureFields_all_ok r r.meta.fields hread
  rcases hid with h | ⟨n, hn, h⟩
  · refine ⟨⟨fun _ => h, fun _ => ?_⟩, fun hne => absurd h hne⟩
    simp [_update_tracked_data, h, PyVal.truthy]
  · have htr : (pyId r.attrs).truthy = true := by
      rw [h]; simp [PyVal.truthy]; omega
    have hdata : _update_tracked_data r = Snapshot.data (captureFields r r.meta.fields) := by
      simp [_update_tracked_data, htr]
    refine ⟨⟨fun hu => ?_, fun hnone => ?_⟩, fun _ => by rw [hdata, hcap]⟩
    · rw [hdata] at hu; cases hu
    · rw [hnone] at h; cases h

/-- Witness for C4 at the persisted record `savedOptionRec` (id 1). -/
theorem capture_shape_witness :
    (pyId savedOptionRec.attrs = PyVal.none ∨
      ∃ n : Int, 0 < n ∧ pyId savedOptionRec.attrs = PyVal.int n) ∧
    (∀ f ∈ savedOptionRec.meta.fields, ∃ v, __get_field_value savedOptionRec f = Except.ok v) ∧
    ((_update_tracked_data savedOptionRec = Snapshot.unsaved ↔ pyId savedOptionRec.attrs = PyVal.none) ∧
     (pyId savedOptionRec.attrs ≠ PyVal.none →
       _update_tracked_data savedOptionRec =
         Snapshot.data (savedOptionRec.meta.fields.map fun f => (f.column, readValue savedOptionRec f)))) := by
  have hid : pyId savedOptionRec.attrs = PyVal.none ∨
      ∃ n : Int, 0 < n ∧ pyId savedOptionRec.attrs = PyVal.int n :=
    Or.inr ⟨1, by decide, rfl⟩
  have hread : ∀ f ∈ savedOptionRec.meta.fields, ∃ v, __get_field_value savedOptionRec f = Except.ok v := by
    have he : savedOptionRec.meta.fields = [idField, keyField, valueField] := rfl
    rw [he]
    intro f hf
    fin_cases hf
    · exact ⟨PyVal.int 1, rfl⟩
    · exact ⟨PyVal.str "foo", rfl⟩
    · exact ⟨PyVal.str "bar", rfl⟩
  exact ⟨hid, hread, capture_shape savedOptionRec hid hread⟩

/-- C6: a freshly constructed record whose identifier is absent has the
`UNSAVED` Snapshot, so `has_changed` is `false` and `old_value` is `None`
for every field name, whatever the in-memory attribute values are. -/
theorem new_record_no_baseline (meta : ModelMeta) (attrs : List (String × Attr)) (fn : String)
    (hid : pyId attrs = PyVal.none) :
    has_changed (__init__ meta attrs) fn = Except.ok false ∧
    old_value (__init__ meta attrs) fn = Except.ok PyVal.none := by
  have hs : (__init__ meta attrs).snapshot = Snapshot.unsaved := by
    simp [__init__, refreshTrackedData, _update_tracked_data, hid, PyVal.truthy]
  constructor
  · unfold has_changed; rw [hs]
  · unfold old_value; rw [hs]

/-- Witness for C6: an unsaved `Option`-shaped record with field values
set in memory. -/
theorem new_record_no_baseline_witness :
    pyId [("id", Attr.val PyVal.none), ("key", Attr.val (PyVal.str "foo")),
          ("value", Attr.val (PyVal.str "bar"))] = PyVal.none ∧
    (has_changed (__init__ optionMeta
        [("id", Attr.val PyVal.none), ("key", Attr.val (PyVal.str "foo")),
         ("value", Attr.val (PyVal.str "bar"))]) "value" = Except.ok false ∧
     old_value (__init__ optionMeta
        [("id", Attr.val PyVal.none), ("key", Attr.val (PyVal.str "foo")),
         ("value", Attr.val (PyVal.str "bar"))]) "value" = Except.ok PyVal.none) :=
  ⟨rfl,
   new_record_no_baseline optionMeta
     [("id", Attr.val PyVal.none), ("key", Attr.val (PyVal.str "foo")),
      ("value", Attr.val (PyVal.str "bar"))] "value" rfl⟩

/-- C8: when a field's read raises during capture (and every field
sharing its storage column or its logical name as column also fails to
read, which holds trivially since columns are unique), that field is
skipped, the whole capture still produces a Snapshot dict, every
successfully read field is present with its value, and a subsequent
`old_value` for the skipped field returns `None` (absent). -/
theorem partial_capture_skips_field (r : Record) (f : Field)
    (hid : (pyId r.attrs).truthy = true)
    (hf : f ∈ r.meta.fields)
    (hraise : __get_field_value r f = Except.error PyErr.attributeError)
    (hnd : (r.meta.fields.map fun x => x.column).Nodup)
    (hcol : ∀ g ∈ r.meta.fields, g.column = f.column → ∀ v, __get_field_value r g ≠ Except.ok v)
    (hname : ∀ g ∈ r.meta.fields, g.column = f.name → ∀ v, __get_field_value r g ≠ Except.ok v) :
    ∃ d, _update_tracked_data r = Snapshot.data d ∧
      alookup d f.column = Option.none ∧
      (∀ g ∈ r.meta.fields, ∀ v, __get_field_value r g = Except.ok v → alookup d g.column = some v) ∧
      old_value (refreshTrackedData r) f.name = Except.ok PyVal.none := by
  have hd : _update_tracked_data r = Snapshot.data (captureFields r r.meta.fields) := by
    simp [_update_tracked_data, hid]
  refine ⟨captureFields r r.meta.fields, hd, ?_, ?_, ?_⟩
  · exact captureFields_lookup_none r r.meta.fields f.column hcol
  · intro g hg v hv
    exact captureFields_lookup_of_ok r r.meta.fields g v hnd hg hv
  · have hn := captureFields_lookup_none r r.meta.fields f.name hname
    simp [old_value, refreshTrackedData, hd, dictGet, hn]

/-- Witness for C8 at `partialOptionRec`, whose `value` read raises. -/
theorem partial_capture_skips_field_witness :
    (pyId partialOptionRec.attrs).truthy = true ∧
    valueField ∈ partialOptionRec.meta.fields ∧
    __get_field_value partialOptionRec valueField = Except.error PyErr.attributeError ∧
    ∃ d, _update_tracked_data partialOptionRec = Snapshot.data d ∧
      alookup d valueField.column = Option.none ∧
      (∀ g ∈ partialOptionRec.meta.fields, ∀ v,
        __get_field_value partialOptionRec g = Except.ok v → alookup d g.column = some v) ∧
      old_value (refreshTrackedData partialOptionRec) valueField.name = Except.ok PyVal.none := by
  have hcol : ∀ g ∈ partialOptionRec.meta.fields, g.column = valueField.column →
      ∀ v, __get_field_value partialOptionRec g ≠ Except.ok v := by
    have he : partialOptionRec.meta.fields = [idField, keyField, valueField] := rfl
    rw [he]
    intro g hg
    fin_cases hg
    · intro hc; exact absurd hc (by decide)
    · intro hc; exact absurd hc (by decide)
    · intro _ v hv; cases hv
  have hname : ∀ g ∈ partialOptionRec.meta.fields, g.column = valueField.name →
      ∀ v, __get_field_value partialOptionRec g ≠ Except.ok v := hcol
  exact ⟨rfl, by decide, rfl,
    partial_capture_skips_field partialOptionRec valueField rfl (by decide) rfl (by decide) hcol hname⟩

/-- C9: whenever the class's `__sane__` contribution is a proper tuple
(so the attribute-list concatenation succeeds) and no rendered attribute
is backed by a failing descriptor, both builders succeed, the rendered
attribute list contains the identifier (`id`, or the caller-supplied
`pk` alias), and every attribute absent on the instance is rendered with
the explicit `None` marker rather than raising. -/
theorem sane_builders_tolerant (attrs : List String) (cls : PyClass) (r : Record) (sa : List String)
    (hsa : saneAttrsFor attrs cls = Except.ok sa)
    (hread : ∀ a ∈ sa, alookup r.attrs a ≠ some Attr.raises) :
    ("id" ∈ sa ∨ "pk" ∈ sa) ∧
    (sane_repr attrs cls r = Except.ok (sa.map fun a => a ++ "=" ++ (attrValD r a).pyRepr) ∧
      ∀ a ∈ sa, alookup r.attrs a = Option.none →
        (a ++ "=" ++ "None") ∈ (sa.map fun a2 => a2 ++ "=" ++ (attrValD r a2).pyRepr)) ∧
    (sane_dict attrs cls r = Except.ok (sa.map fun a => (cls.name.toLower ++ "." ++ a, (attrValD r a).pyStr)) ∧
      ∀ a ∈ sa, alookup r.attrs a = Option.none →
        (cls.name.toLower ++ "." ++ a, "None") ∈
          (sa.map fun a2 => (cls.name.toLower ++ "." ++ a2, (attrValD r a2).pyStr))) := by
  obtain ⟨u, hu⟩ := saneAttrsFor_eq attrs cls sa hsa
  have hmem : "id" ∈ sa ∨ "pk" ∈ sa := by
    rcases addIdAttr_mem attrs with h | h
    · exact Or.inl (hu ▸ List.mem_append_left u h)
    · exact Or.inr (hu ▸ List.mem_append_left u h)
  have hrepr : sane_repr attrs cls r = Except.ok (sa.map fun a => a ++ "=" ++ (attrValD r a).pyRepr) := by
    unfold sane_repr
    rw [hsa]
    exact mapME_ok (reprPair r) (fun a => a ++ "=" ++ (attrValD r a).pyRepr) sa
      (fun a ha => by unfold reprPair; rw [pygetattr_ok r a (hread a ha)])
  have hdict : sane_dict attrs cls r =
      Except.ok (sa.map fun a => (cls.name.toLower ++ "." ++ a, (attrValD r a).pyStr)) := by
    unfold sane_dict
    rw [hsa]
    exact mapME_ok (dictPair cls r) (fun a => (cls.name.toLower ++ "." ++ a, (attrValD r a).pyStr)) sa
      (fun a ha => by unfold dictPair; rw [pygetattr_ok r a (hread a ha)])
  refine ⟨hmem, ⟨hrepr, ?_⟩, ⟨hdict, ?_⟩⟩
  · intro a ha habs
    have hv : attrValD r a = PyVal.none := by simp [attrValD, habs]
    have := List.mem_map_of_mem (fun a2 => a2 ++ "=" ++ (attrValD r a2).pyRepr) ha
    simpa [hv, PyVal.pyRepr] using this
  · intro a ha habs
    have hv : attrValD r a = PyVal.none := by simp [attrValD, habs]
    have := List.mem_map_of_mem (fun a2 => (cls.name.toLower ++ "." ++ a2, (attrValD r a2).pyStr)) ha
    simpa [hv, PyVal.pyStr] using this

/-- Witness for C9 at a class shaped like `Option` (tuple `__sane__` of
`key` and `value`) and an instance missing its `value` attribute. -/
theorem sane_builders_tolerant_witness :
    saneAttrsFor [] ⟨"Option", some (SaneAttr.tup ["key", "value"])⟩ = Except.ok ["id", "key", "value"] ∧
    (∀ a ∈ ["id", "key", "value"], alookup sparseOptionRec.attrs a ≠ some Attr.raises) ∧
    (("id" ∈ ["id", "key", "value"] ∨ "pk" ∈ ["id", "key", "value"]) ∧
     (sane_repr [] ⟨"Option", some (SaneAttr.tup ["key", "value"])⟩ sparseOptionRec =
        Except.ok (["id", "key", "value"].map fun a => a ++ "=" ++ (attrValD sparseOptionRec a).pyRepr) ∧
      ∀ a ∈ ["id", "key", "value"], alookup sparseOptionRec.attrs a = Option.none →
        (a ++ "=" ++ "None") ∈
          (["id", "key", "value"].map fun a2 => a2 ++ "=" ++ (attrValD sparseOptionRec a2).pyRepr)) ∧
     (sane_dict [] ⟨"Option", some (SaneAttr.tup ["key", "value"])⟩ sparseOptionRec =
        Except.ok (["id", "key", "value"].map fun a =>
          ("Option".toLower ++ "." ++ a, (attrValD sparseOptionRec a).pyStr)) ∧
      ∀ a ∈ ["id", "key", "value"], alookup sparseOptionRec.attrs a = Option.none →
        ("Option".toLower ++ "." ++ a, "None") ∈
          (["id", "key", "value"].map fun a2 =>
            ("Option".toLower ++ "." ++ a2, (attrValD sparseOptionRec a2).pyStr)))) := by
  have hread : ∀ a ∈ ["id", "key", "value"], alookup sparseOptionRec.attrs a ≠ some Attr.raises := by
    decide
  exact ⟨rfl, hread,
    sane_builders_tolerant [] ⟨"Option", some (SaneAttr.tup ["key", "value"])⟩ sparseOptionRec
      ["id", "key", "value"] rfl hread⟩

end Sentry
